import Mathlib

/-!
Verification of the PHUB core session engine (`src/phub/core.py`,
`src/phub/database.py`, `src/phub/objects/account.py`) against its
natural-language specification. Each Python function relevant to the
checked claims is shallowly embedded as an executable Lean definition;
external effects (network responses, the credential store) are passed
in explicitly as data.
-/

namespace PHUB

/- ## Transport: the retry loop of `Client.call` (core.py, lines 99 to 168)

The body of `call` loops `for i in range(consts.MAX_CALL_RETRIES)`.
Each iteration sends one request and then either:
  - breaks with the response in hand (a clean page),
  - detects a challenge marker, runs `parser.challenge` and `continue`s
    (reloading the page on the next iteration),
  - or catches an exception (transport error, or the 429 body marker
    re-raised as `ConnectionError`), sleeps the fixed backoff
    `consts.MAX_CALL_TIMEOUT`, and `continue`s.
The `for ... else` clause raises
`ConnectionError('Call failed after ... retries')`, interpolating
`i + 1` where `i` holds the last loop index. -/

/-- Outcome of one iteration of the retry loop of `Client.call`: the request
either yields a clean response (`success`: the loop breaks), a page carrying a
challenge marker (`challenge`: the solver runs and the loop continues), or an
exception, covering transport errors and the 429 rate-limit body marker
(`failure`: a fixed backoff sleep, then the loop continues). -/
inductive AttemptOutcome
  | success
  | challenge
  | failure
deriving DecidableEq, Repr

/-- Result of `Client.call`: a response obtained at 0-based attempt `i`;
a `ConnectionError` whose message reports a retry count (the source
interpolates `i + 1` where `i` is the last loop index); or a `NameError`
when the loop never ran (`MAX_CALL_RETRIES = 0` leaves `i` unbound in the
`else` clause). -/
inductive CallResult
  | ok (i : Nat)
  | connectionError (reported : Nat)
  | nameError
deriving DecidableEq, Repr

/-- Observable trace of one `Client.call` invocation: how many requests were
issued, how many backoff sleeps were performed, and the final result. -/
structure CallTrace where
  attempts : Nat
  sleeps : Nat
  result : CallResult
deriving DecidableEq, Repr

/-- The retry loop of `Client.call`, one constructor case per remaining
iteration. `outcomes i` is the outcome of the request issued at loop index
`i`; `attempts` and `sleeps` accumulate the trace. When the iterations are
exhausted, `i` equals the original `MAX_CALL_RETRIES`, and the reported
count `i` matches the source's `i + 1` with `i` re-bound to the last index. -/
def callGo (outcomes : Nat → AttemptOutcome) :
    Nat → Nat → Nat → Nat → CallTrace
  | 0, i, attempts, sleeps =>
      ⟨attempts, sleeps, if i = 0 then .nameError else .connectionError i⟩
  | remaining + 1, i, attempts, sleeps =>
      match outcomes i with
      | .success => ⟨attempts + 1, sleeps, .ok i⟩
      | .challenge => callGo outcomes remaining (i + 1) (attempts + 1) sleeps
      | .failure => callGo outcomes remaining (i + 1) (attempts + 1) (sleeps + 1)

/-- `Client.call` (core.py, lines 133 to 165): run the retry loop with
`maxRetries` iterations, starting from loop index 0 with an empty trace. -/
def call (outcomes : Nat → AttemptOutcome) (maxRetries : Nat) : CallTrace :=
  callGo outcomes maxRetries 0 0 0

/-- Helper: when every request fails, the loop consumes all remaining
iterations, sleeping once per failure, and ends in the exhaustion clause. -/
theorem callGo_all_failure (outcomes : Nat → AttemptOutcome)
    (hfail : ∀ i, outcomes i = .failure) :
    ∀ remaining i attempts sleeps,
      callGo outcomes remaining i attempts sleeps =
        ⟨attempts + remaining, sleeps + remaining,
          if i + remaining = 0 then .nameError
          else .connectionError (i + remaining)⟩ := by
  intro remaining
  induction remaining with
  | zero => intro i a s; simp [callGo]
  | succ m ih =>
      intro i a s
      simp only [callGo, hfail i]
      rw [ih]
      have h1 : a + 1 + m = a + (m + 1) := by omega
      have h2 : s + 1 + m = s + (m + 1) := by omega
      have h3 : i + 1 + m = i + (m + 1) := by omega
      rw [h1, h2, h3]

/-- Helper: the number of requests issued by the retry loop never exceeds
the accumulator plus the remaining iteration budget. -/
theorem callGo_attempts_le (outcomes : Nat → AttemptOutcome) :
    ∀ remaining i attempts sleeps,
      (callGo outcomes remaining i attempts sleeps).attempts ≤
        attempts + remaining := by
  intro remaining
  induction remaining with
  | zero => intro i a s; simp [callGo]
  | succ m ih =>
      intro i a s
      simp only [callGo]
      cases outcomes i with
      | success => simp
      | challenge => exact le_trans (ih (i + 1) (a + 1) s) (by omega)
      | failure => exact le_trans (ih (i + 1) (a + 1) (s + 1)) (by omega)

/-- Claim C6: for an endpoint failing on every attempt, with the maximum
attempt count configured as `n` (`MAX_CALL_RETRIES`), `Client.call` issues
exactly `n` requests, sleeps the fixed backoff after each failed attempt
(hence between any two consecutive attempts), and ends with a
`ConnectionError` reporting `n` attempts. -/
theorem call_exhausts_attempts (outcomes : Nat → AttemptOutcome) (n : Nat)
    (hn : 0 < n) (hfail : ∀ i, outcomes i = .failure) :
    call outcomes n = ⟨n, n, .connectionError n⟩ := by
  unfold call
  rw [callGo_all_failure outcomes hfail n 0 0 0]
  simp [Nat.pos_iff_ne_zero.mp hn]

/-- Witness for C6 at `n = 3` with an always-failing endpoint. -/
theorem call_exhausts_attempts_witness :
    call (fun _ => AttemptOutcome.failure) 3 = ⟨3, 3, .connectionError 3⟩ :=
  call_exhausts_attempts (fun _ => AttemptOutcome.failure) 3 (by decide)
    (fun _ => rfl)

/-- Claim C4, counterexample: the claim says a detected challenge triggers a
resolve-and-replay that does not consume a retry attempt. With
`MAX_CALL_RETRIES = 1` and a first response carrying a challenge, the
`continue` advances the loop index of `range(MAX_CALL_RETRIES)`: the single
attempt is consumed by the challenge resolution and the call raises
`ConnectionError`, even though the replay (attempt index 1) would have
succeeded. -/
theorem call_challenge_consumes_cex :
    call (fun i => if i = 0 then AttemptOutcome.challenge else .success) 1 =
      ⟨1, 0, .connectionError 1⟩ ∧
    (fun i => if i = 0 then AttemptOutcome.challenge else .success) 1 =
      .success := by
  exact ⟨rfl, rfl⟩

/-- Claim C4, amended: challenge resolution shares the retry budget. A run
of `k` challenge resolutions followed by a clean response consumes `k + 1`
of the `n` available attempts (no backoff sleeps), and the number of
requests issued by any invocation is bounded by its configured maximum, so
challenge resolution is bounded within the invocation. -/
theorem call_challenge_budget (outcomes outcomes2 : Nat → AttemptOutcome)
    (n k n2 : Nat) (hk : k < n)
    (hch : ∀ j, j < k → outcomes j = .challenge)
    (hsucc : outcomes k = .success) :
    call outcomes n = ⟨k + 1, 0, .ok k⟩ ∧
    (call outcomes2 n2).attempts ≤ n2 := by
  constructor
  · unfold call
    have main : ∀ k' remaining i attempts,
        (∀ j, j < k' → outcomes (i + j) = .challenge) →
        outcomes (i + k') = .success → k' < remaining →
        callGo outcomes remaining i attempts 0 =
          ⟨attempts + k' + 1, 0, .ok (i + k')⟩ := by
      intro k'
      induction k' with
      | zero =>
          intro remaining i a _ hs hlt
          obtain ⟨m, rfl⟩ := Nat.exists_eq_succ_of_ne_zero (Nat.pos_iff_ne_zero.mp hlt)
          simp only [callGo]
          rw [show i + 0 = i from rfl] at hs
          rw [hs]
          simp
      | succ k'' ih =>
          intro remaining i a hc hs hlt
          obtain ⟨m, rfl⟩ := Nat.exists_eq_succ_of_ne_zero (by omega : remaining ≠ 0)
          have hc0 : outcomes i = .challenge := by
            have := hc 0 (by omega)
            simpa using this
          simp only [callGo, hc0]
          have := ih m (i + 1) (a + 1)
            (fun j hj => by
              have := hc (j + 1) (by omega)
              rw [show i + 1 + j = i + (j + 1) by omega]
              exact this)
            (by rw [show i + 1 + k'' = i + (k'' + 1) by omega]; exact hs)
            (by omega)
          rw [this]
          have h1 : a + 1 + k'' + 1 = a + (k'' + 1) + 1 := by omega
          have h2 : i + 1 + k'' = i + (k'' + 1) := by omega
          rw [h1, h2]
    have := main k n 0 0 (fun j hj => by simpa using hch j hj)
      (by simpa using hsucc) hk
    simpa using this
  · exact le_trans (callGo_attempts_le outcomes2 n2 0 0 0) (by omega)

/-- Witness for the amended C4: one challenge resolution then a clean
response, inside a budget of 2, issues exactly 2 requests; and an
always-failing call with budget 5 issues at most 5. -/
theorem call_challenge_budget_witness :
    call (fun i => if i = 0 then AttemptOutcome.challenge else .success) 2 =
      ⟨2, 0, .ok 1⟩ ∧
    (call (fun _ => AttemptOutcome.failure) 5).attempts ≤ 5 :=
  call_challenge_budget
    (fun i => if i = 0 then AttemptOutcome.challenge else .success)
    (fun _ => AttemptOutcome.failure) 2 1 5 (by decide)
    (fun j hj => by
      have : j = 0 := by omega
      subst this; rfl)
    rfl

/- ## Harvest pipeline: `Model.get_single_video_data_json`
(objects/account.py, lines 288 to 349)

The method submits one `fetch_video_data(row)` future per filtered row to a
`ThreadPoolExecutor`, then iterates `concurrent.futures.as_completed`,
calling `video_data_list.extend(future.result())` for each. Each task
returns a *list* of per-datapoint dicts, and `extend` flattens them into
one aggregate list. `future.result()` re-raises the task's exception, which
propagates out of the aggregation loop (the enclosing `logger.catch`
decorator then swallows it, so the method produces no result list); sibling
futures are never cancelled, but their results are discarded. -/

/-- Embedding of the fan-in aggregation loop: the list argument holds, in
completion order, each task's outcome — `Except.ok` with its list of data
dicts, or `Except.error` for a raised exception. `extend` appends a
succeeding task's rows; the first erroring task aborts the whole
aggregation with that error. -/
def harvestAggregate {α : Type} :
    List (Except String (List α)) → Except String (List α)
  | [] => .ok []
  | .error e :: _ => .error e
  | .ok xs :: rs =>
      match harvestAggregate rs with
      | .error e => .error e
      | .ok ys => .ok (xs ++ ys)

/-- Sum of the sizes of the succeeding tasks' result lists. -/
def okLengths {α : Type} (rs : List (Except String (List α))) : Nat :=
  (rs.map (fun r => match r with | .ok xs => xs.length | .error _ => 0)).sum

/-- Claim C1, counterexample: the claim says the harvest returns exactly one
result entry per submitted item and captures a task's failure as that item's
error entry without aborting the batch. On one submitted item whose task
yields two data rows, the aggregate has size 2, not 1; and on one submitted
item whose task raises, the aggregation aborts with the exception instead of
producing a one-entry result list. -/
theorem harvest_result_size_cex :
    harvestAggregate
        ([Except.ok [(1 : Nat), 2]] : List (Except String (List Nat))) =
      Except.ok [1, 2] ∧
    ([Except.ok [(1 : Nat), 2]] : List (Except String (List Nat))).length
      = 1 ∧
    ([(1 : Nat), 2].length = 1 → False) ∧
    harvestAggregate [(Except.error "boom" : Except String (List Nat))] =
      Except.error "boom" := by
  refine ⟨rfl, rfl, by decide, rfl⟩

/-- Claim C1, amended: the fan-out dispatches one task per item, but the
aggregation flattens the per-item row lists, so when every task succeeds the
result is the concatenation of the per-item lists (its size is the sum of
their sizes, not the item count); and whenever any task raises, the whole
aggregation yields that task's error instead of per-item error entries
(the batch is aborted; siblings are not cancelled but their results are
discarded). -/
theorem harvest_flatten_and_abort {α : Type}
    (rs : List (Except String (List α))) :
    ((∀ r ∈ rs, ∃ xs, r = .ok xs) →
      ∃ l, harvestAggregate rs = .ok l ∧ l.length = okLengths rs) ∧
    (∀ e, Except.error e ∈ rs → ∃ e2, harvestAggregate rs = .error e2) := by
  induction rs with
  | nil =>
      refine ⟨fun _ => ⟨[], rfl, rfl⟩, fun e he => absurd he (by simp)⟩
  | cons r rs ih =>
      constructor
      · intro hall
        obtain ⟨xs, rfl⟩ := hall r (by simp)
        obtain ⟨l, hl, hlen⟩ := ih.1 (fun r' hr' => hall r' (by simp [hr']))
        refine ⟨xs ++ l, ?_, ?_⟩
        · simp only [harvestAggregate, hl]
        · simp [okLengths] at hlen ⊢
          omega
      · intro e he
        rcases List.mem_cons.mp he with h | h
        · exact ⟨e, by rw [← h]; rfl⟩
        · cases r with
          | error e0 => exact ⟨e0, rfl⟩
          | ok xs =>
              obtain ⟨e2, he2⟩ := ih.2 e h
              exact ⟨e2, by simp only [harvestAggregate, he2]⟩

/-- Witness for the amended C1: two succeeding tasks with 1 and 2 rows
aggregate to a 3-row batch; a batch with an erroring task yields an error. -/
theorem harvest_flatten_and_abort_witness :
    (∃ l, harvestAggregate [Except.ok [(1 : Nat)], Except.ok [2, 3]] =
        Except.ok l ∧
      l.length = okLengths [Except.ok [(1 : Nat)], Except.ok [2, 3]]) ∧
    (∃ e2, harvestAggregate [Except.ok [(4 : Nat)], Except.error "boom"] =
        Except.error e2) := by
  constructor
  · exact (harvest_flatten_and_abort _).1
      (by intro r hr; fin_cases hr <;> exact ⟨_, rfl⟩)
  · exact (harvest_flatten_and_abort _).2 "boom" (by simp)

/- ## Account construction (objects/account.py, lines 31 to 44;
core.py, lines 30 to 82)

`Account.__new__` returns a new object only when
`all(client.credentials.values())` holds, i.e. both the username and the
password are truthy Python strings (not `None` and not empty); otherwise it
implicitly returns `None`, and `Client.__init__` skips the automatic login
because of the `if login and self.account` guard. -/

/-- Python truthiness of an optional string: `None` and the empty string
are falsy. -/
def truthy : Option String → Bool
  | none => false
  | some s => !(s == "")

/-- Embedding of `Account.__new__`: whether an `Account` object is created
for the given credentials. -/
def account_new (username password : Option String) : Bool :=
  truthy username && truthy password

/-- Observable outcome of `Client.__init__` relevant to claim C9: whether an
account object was attached and whether the automatic login ran. -/
structure InitResult where
  accountCreated : Bool
  autoLoginTriggered : Bool
deriving DecidableEq, Repr

/-- Embedding of the construction-time wiring of `Client.__init__`:
`self.account = Account(self)`, then `if login and self.account:
self.login()`. -/
def clientInit (username password : Option String) (login : Bool) :
    InitResult :=
  let acc := account_new username password
  ⟨acc, login && acc⟩

/-- Claim C9: with a missing (or empty) username or password, no account
object is created and the automatic login at construction is skipped; in
general the account object exists exactly when both credentials are truthy. -/
theorem account_requires_both_credentials (u p : Option String) (l : Bool)
    (h : truthy u = false ∨ truthy p = false) :
    (clientInit u p l).accountCreated = false ∧
    (clientInit u p l).autoLoginTriggered = false ∧
    (account_new u p = true ↔ truthy u = true ∧ truthy p = true) := by
  rcases h with h | h <;>
    simp [clientInit, account_new, h]

/-- Witness for C9: an empty username with a non-empty password creates no
account and triggers no login. -/
theorem account_requires_both_credentials_witness :
    (clientInit (some "") (some "pw") true).accountCreated = false ∧
    (clientInit (some "") (some "pw") true).autoLoginTriggered = false ∧
    (account_new (some "") (some "pw") = true ↔
      truthy (some "") = true ∧ truthy (some "pw") = true) :=
  account_requires_both_credentials (some "") (some "pw") true
    (Or.inl (by decide))

/- ## Session state, cookies and `Client.reset` (core.py, lines 84 to 97,
485 to 491) -/

/-- A cookie jar as an association list in insertion order. `cookieSet`
models `requests` cookie assignment: setting an existing name overwrites
its value in place, a new name is appended. -/
def cookieSet (jar : List (String × String)) (k v : String) :
    List (String × String) :=
  if jar.any (fun p => p.1 == k) then
    jar.map (fun p => if p.1 == k then (k, v) else p)
  else jar ++ [(k, v)]

/-- `cookies.update(...)` over an association list of incoming cookies. -/
def cookieUpdate (jar : List (String × String)) :
    List (String × String) → List (String × String)
  | [] => jar
  | (k, v) :: rest => cookieUpdate (cookieSet jar k v) rest

/-- Client state tracked by the embedding: the `logged` flag, the
memoized `_granted_token` cache (present or cleared), the session cookie
jar, the credentials dict, a ghost counter of writes performed against
the credential store (incremented by nothing in the embedded login code,
since `login`, `login_cookies` and `reset` never call `save_cookies` or
`save_credentials`), and whether the `db_ops` attribute exists —
`Client.__init__` creates it only when both a username and a password were
supplied (core.py, lines 71 to 77), and nothing else ever creates it. -/
structure ClientState where
  logged : Bool
  grantedToken : Option String
  cookies : List (String × String)
  username : Option String
  password : Option String
  storeSaves : Nat
  hasDbOps : Bool
deriving DecidableEq, Repr

/-- Whether `Client.__init__` creates the `db_ops` attribute (core.py,
lines 71 to 77): `if username and password:` — only when both are truthy. -/
def clientHasDbOps (username password : Option String) : Bool :=
  truthy username && truthy password

/-- `Client._clear_granted_token` (core.py, lines 485 to 491): drop the
memoized token if present. -/
def _clear_granted_token (st : ClientState) : ClientState :=
  { st with grantedToken := none }

/-- `Client.reset` (core.py, lines 84 to 97): replace the session with a
fresh one (empty cookie jar), clear the granted-token cache, then set the
four age-disclaimer bypass cookies to the string 1. -/
def reset (st : ClientState) : ClientState :=
  let st := { st with cookies := ([] : List (String × String)) }
  let st := _clear_granted_token st
  { st with cookies :=
      cookieSet (cookieSet (cookieSet (cookieSet st.cookies
        "accessAgeDisclaimerPH" "1") "accessAgeDisclaimerUK" "1")
        "accessPH" "1") "age_verified" "1" }

/-- Claim C8: after every `Client.reset`, the session cookie jar holds
exactly the four age-disclaimer cookies, each set to 1 (in particular it is
never empty), and the cached granted token is absent. -/
theorem reset_cookie_jar_exact (st : ClientState) :
    (reset st).cookies =
      [("accessAgeDisclaimerPH", "1"), ("accessAgeDisclaimerUK", "1"),
        ("accessPH", "1"), ("age_verified", "1")] ∧
    (reset st).grantedToken = none ∧
    (reset st).cookies ≠ [] := by
  refine ⟨rfl, rfl, ?_⟩
  intro h
  simp [reset, _clear_granted_token, cookieSet] at h

/- ## Auth state machine: `Client.login_cookies` and `Client.login`
(core.py, lines 170 to 285) and the credential store
(database.py, lines 121 to 185) -/

/-- Parsed JSON body of a `front/authenticate` response. `success` models
`data.get('success')` with `none` for a missing key, for which
`int(data.get('success'))` raises `TypeError` (`int(None)` is not valid);
`autoLoginParameter` is the second-factor continuation token. -/
structure AuthResponse where
  success : Option Int
  message : String
  autoLoginParameter : Option String
deriving DecidableEq, Repr

/-- The external world a login run observes: the credential store
(`load_cookies`, `load_credentials`, `get_secret_key` each return their
stored value or `None`) and the parsed responses of the cookie probe, the
credential POST, and the second-factor POST. -/
structure LoginEnv where
  storedCookies : Option (List (String × String))
  cookieAuthSuccess : Option Int
  storedCredentials : Option (String × String)
  storedSecret : Option String
  authResponse : AuthResponse
  authResponse2fa : AuthResponse
deriving DecidableEq, Repr

/-- Python exceptions that can escape the embedded login code. -/
inductive PyError
  | clientAlreadyLogged
  | loginFailed (message : String)
  | typeErrorIntNone
  | typeErrorUnpackNone
  | unboundLocalError (name : String)
  | valueErrorNoSecret
  | attributeError (name : String)
deriving DecidableEq, Repr

/-- `Client.login_cookies` (core.py, lines 170 to 196), statement by
statement:
  - line 178, `self.db_ops.load_cookies(...)`: when the client has no
    `db_ops` attribute (created only for fully-credentialed clients), the
    attribute lookup raises `AttributeError` before anything else runs;
  - lines 179 to 180: a `None` from the store is "nothing cached" — the
    jar update is skipped and the probe proceeds;
  - lines 182 to 186: probe `front/authenticate` and parse the `success`
    flag with `int(...)` (`TypeError` when the key is missing);
  - lines 186 to 191, flag 1: set `logged`, clear the granted token, then
    `self.account.connect(is_logged)` passes the raw `requests.Response`
    to `Account.connect`, whose first statement `data.get('username')`
    raises `AttributeError` (a `Response` has no `get`), so this branch
    never returns;
  - lines 192 to 193, other flags: `self.reset()`;
  - lines 195 to 196: `self.logged = bool(success)` is returned. -/
def login_cookies (st : ClientState) (env : LoginEnv) :
    ClientState × Except PyError Bool :=
  if !st.hasDbOps then
    (st, .error (.attributeError "db_ops"))
  else
    let st :=
      match env.storedCookies with
      | some cs => { st with cookies := cookieUpdate st.cookies cs }
      | none => st
    match env.cookieAuthSuccess with
    | none => (st, .error .typeErrorIntNone)
    | some s =>
        if s = 1 then
          (_clear_granted_token { st with logged := true },
            .error (.attributeError "get"))
        else
          let st := reset st
          (({ st with logged := s != 0 } : ClientState), .ok (s != 0))

/-- The lazy credential backfill of `Client.login` (core.py, lines 225 to
227), factored out: when `self.credentials['password']` is falsy, the
result of `load_credentials(username)` is tuple-unpacked into the
credentials dict — a `TypeError` when the store returned `None`. In the
program this step is dead code: a falsy password at construction means
`db_ops` was never created (core.py, lines 71 to 77), so `login_cookies`
already raised `AttributeError` at its first store dereference; the branch
is retained for line-faithfulness of `login`. -/
def backfillCredentials (st : ClientState) (env : LoginEnv) :
    Except PyError ClientState :=
  if truthy st.password then .ok st
  else
    match env.storedCredentials with
    | none => .error .typeErrorUnpackNone
    | some (u2, p2) =>
        .ok { st with username := some u2, password := some p2 }

/-- `Client.login` (core.py, lines 199 to 285). Control flow of the source,
line by line:
  - lines 215 to 217: if not `force` and already logged, raise
    `ClientAlreadyLogged` (regardless of `throw`);
  - lines 220 to 222: try `login_cookies` (whose exceptions — including
    the `AttributeError` on a missing `db_ops` and the `AttributeError`
    raised inside `Account.connect` on cookie flag 1 — propagate out of
    `login` unhandled); on `True`, return `True`;
  - lines 225 to 227: the `backfillCredentials` step above;
  - lines 230 to 245: POST the credentials; `success == 1` sets `logged`
    and returns `True` (without touching the granted-token cache);
  - lines 246 to 273: on `success == 0` with an `autoLoginParameter`,
    derive an OTP (`ValueError` without a stored secret) and POST it;
    flag 1 sets `logged` and returns `True`; otherwise raise
    `LoginFailed` when `throw` is set;
  - lines 275 to 277: raise `LoginFailed(message)` when `throw` and the
    first flag was falsy;
  - lines 280 to 285: clear the granted token, then evaluate
    `self.account.connect(data) if not data_2fa else ...`: on any path that
    skipped the second-factor branch the local `data_2fa` was never
    assigned, so this line raises `UnboundLocalError`; on the second-factor
    path it proceeds and `bool(success)` is returned. -/
def login (st : ClientState) (env : LoginEnv) (force throw : Bool) :
    ClientState × Except PyError Bool :=
  if !force && st.logged then
    (st, .error .clientAlreadyLogged)
  else
    match (login_cookies st env).2 with
    | .error e => ((login_cookies st env).1, .error e)
    | .ok isLogged =>
      if isLogged then ((login_cookies st env).1, .ok true)
      else
        match backfillCredentials (login_cookies st env).1 env with
        | .error e => ((login_cookies st env).1, .error e)
        | .ok st2 =>
          match env.authResponse.success with
          | none => (st2, .error .typeErrorIntNone)
          | some success =>
            if success = 1 then
              ({ st2 with logged := true }, .ok true)
            else if success = 0 &&
                env.authResponse.autoLoginParameter.isSome then
              match env.storedSecret with
              | none => (st2, .error .valueErrorNoSecret)
              | some _ =>
                match env.authResponse2fa.success with
                | none => (st2, .error .typeErrorIntNone)
                | some s2 =>
                  if s2 = 1 then
                    ({ st2 with logged := true }, .ok true)
                  else if throw then
                    (st2, .error (.loginFailed "2FA authentication failed"))
                  else
                    ({ _clear_granted_token st2 with
                        logged := success != 0 },
                      .ok (success != 0))
            else
              if throw && success = 0 then
                (st2, .error (.loginFailed env.authResponse.message))
              else
                (_clear_granted_token st2,
                  .error (.unboundLocalError "data_2fa"))

/-- Claim C2 (code-bug evidence): `login` with `throw = False` still raises
on three of the claim's non-success outcomes. (1) An already-logged client
raises `ClientAlreadyLogged` before `throw` is ever consulted. (2) A wrong
password (flag 0, no second-factor token) reaches the final
`self.account.connect(data) if not data_2fa else ...` where the local
`data_2fa` was never assigned, raising `UnboundLocalError`. (3) A malformed
response without a `success` key raises `TypeError` from `int(None)`.
Only the rejected-second-factor outcome actually returns `False`. -/
theorem login_tolerant_mode_still_raises :
    (login ⟨true, none, [], some "u", some "p", 0, true⟩
        ⟨none, some 0, none, none, ⟨some 0, "", none⟩, ⟨some 0, "", none⟩⟩
        false false).2 = Except.error PyError.clientAlreadyLogged ∧
    (login ⟨false, none, [], some "u", some "p", 0, true⟩
        ⟨none, some 0, none, none,
          ⟨some 0, "Invalid password.", none⟩, ⟨some 0, "", none⟩⟩
        false false).2 =
      Except.error (PyError.unboundLocalError "data_2fa") ∧
    (login ⟨false, none, [], some "u", some "p", 0, true⟩
        ⟨none, some 0, none, none, ⟨none, "", none⟩, ⟨some 0, "", none⟩⟩
        false false).2 = Except.error PyError.typeErrorIntNone ∧
    (login ⟨false, none, [], some "u", some "p", 0, true⟩
        ⟨none, some 0, none, some "SECRET",
          ⟨some 0, "", some "token2"⟩, ⟨some 0, "", none⟩⟩
        false false).2 = Except.ok false := by
  exact ⟨rfl, rfl, rfl, rfl⟩

/-- Helper: a client without the `db_ops` attribute fails at the first
statement of `login_cookies` with `AttributeError`, before any store or
network access — the result is the same for every environment. -/
theorem login_cookies_noDb (st : ClientState) (env : LoginEnv)
    (hd : st.hasDbOps = false) :
    login_cookies st env =
      (st, Except.error (PyError.attributeError "db_ops")) := by
  simp [login_cookies, hd]

/-- Helper: on cookie flag 1 the client is marked logged and the token
cache is cleared, but `Account.connect` then raises `AttributeError`
(a `Response` has no `get`), so `login_cookies` never returns `True`. -/
theorem login_cookies_flag1 (st : ClientState) (env : LoginEnv)
    (hd : st.hasDbOps = true) (hc : env.cookieAuthSuccess = some 1) :
    (login_cookies st env).2 =
      Except.error (PyError.attributeError "get") ∧
    (login_cookies st env).1.grantedToken = none ∧
    (login_cookies st env).1.logged = true ∧
    (login_cookies st env).1.storeSaves = st.storeSaves := by
  unfold login_cookies
  cases hsc : env.storedCookies <;>
    simp [hsc, hc, hd, _clear_granted_token]

/-- Helper: when the client has `db_ops` and the cookie probe parses to a
flag other than 1, `login_cookies` returns `bool(s)` without raising, and
the resulting state has passed through `reset`: granted-token cache
cleared, credentials dict unchanged, store-write counter unchanged. -/
theorem login_cookies_flag_ne1 (st : ClientState) (env : LoginEnv) (s : Int)
    (hd : st.hasDbOps = true) (hc : env.cookieAuthSuccess = some s)
    (hs1 : s ≠ 1) :
    (login_cookies st env).2 = Except.ok (s != 0) ∧
    (login_cookies st env).1.grantedToken = none ∧
    (login_cookies st env).1.password = st.password ∧
    (login_cookies st env).1.username = st.username ∧
    (login_cookies st env).1.storeSaves = st.storeSaves ∧
    (login_cookies st env).1.logged = (s != 0) := by
  unfold login_cookies
  cases hsc : env.storedCookies <;>
    simp [hsc, hc, hd, hs1, reset, _clear_granted_token]

/-- Helper: when the client has `db_ops` but the cookie probe response
lacks a parsable `success` flag, `login_cookies` raises `TypeError` and
leaves the granted token and the store-write counter as they were. -/
theorem login_cookies_noflag (st : ClientState) (env : LoginEnv)
    (hd : st.hasDbOps = true) (hc : env.cookieAuthSuccess = none) :
    (login_cookies st env).2 = Except.error PyError.typeErrorIntNone ∧
    (login_cookies st env).1.grantedToken = st.grantedToken ∧
    (login_cookies st env).1.storeSaves = st.storeSaves := by
  unfold login_cookies
  cases hsc : env.storedCookies <;> simp [hsc, hc, hd]

/-- Claim C3, counterexample: a password-auth login that enters `LoggedIn`
(first flag 1 after a failed cookie probe) returns `True`, yet the
store-write counter stays 0: the current cookie jar is never persisted to
the credential store (no code path of `login` calls `save_cookies`),
refuting the persistence half of the claim. -/
theorem login_no_persist_cex :
    (login ⟨false, some "cachedtok", [], some "u", some "p", 0, true⟩
        ⟨none, some 0, none, none, ⟨some 1, "", none⟩, ⟨some 0, "", none⟩⟩
        false true).2 = Except.ok true ∧
    (login ⟨false, some "cachedtok", [], some "u", some "p", 0, true⟩
        ⟨none, some 0, none, none, ⟨some 1, "", none⟩, ⟨some 0, "", none⟩⟩
        false true).1.logged = true ∧
    (login ⟨false, some "cachedtok", [], some "u", some "p", 0, true⟩
        ⟨none, some 0, none, none, ⟨some 1, "", none⟩, ⟨some 0, "", none⟩⟩
        false true).1.storeSaves = 0 := by
  exact ⟨rfl, rfl, rfl⟩

/-- Helper: a successful credential backfill changes at most the
credentials dict — the granted token and the store-write counter pass
through unchanged. -/
theorem backfill_preserves (st : ClientState) (env : LoginEnv)
    (st2 : ClientState) (h : backfillCredentials st env = Except.ok st2) :
    st2.grantedToken = st.grantedToken ∧ st2.storeSaves = st.storeSaves := by
  unfold backfillCredentials at h
  split at h
  · cases h; exact ⟨rfl, rfl⟩
  · cases hcr : env.storedCredentials with
    | none => rw [hcr] at h; cases h
    | some up =>
        rcases up with ⟨u2, p2⟩
        rw [hcr] at h
        cases h
        exact ⟨rfl, rfl⟩

/-- Claim C3, amended: whenever `login` returns `True` (the client entered
`LoggedIn` via cookie auth, password auth, or the second factor), any
previously cached granted token has been invalidated — explicitly on the
cookie path, and by the `reset` of the failed cookie stage on the password
and OTP paths — so the final state carries no cached token; but the cookie
jar is not persisted to the credential store: the store-write counter is
unchanged on every path. -/
theorem login_token_cleared_no_persist (st : ClientState) (env : LoginEnv)
    (force throw : Bool)
    (h : (login st env force throw).2 = Except.ok true) :
    (login st env force throw).1.grantedToken = none ∧
    (login st env force throw).1.storeSaves = st.storeSaves := by
  by_cases hguard : (!force && st.logged) = true
  · rw [login, if_pos hguard] at h
    exact absurd h (by simp)
  · by_cases hd : st.hasDbOps = true
    case neg =>
      have hd2 : st.hasDbOps = false := by simpa using hd
      rw [login, if_neg hguard, login_cookies_noDb st env hd2] at h
      simp at h
    case pos =>
      cases hc : env.cookieAuthSuccess with
      | none =>
          obtain ⟨h2, -, -⟩ := login_cookies_noflag st env hd hc
          rw [login, if_neg hguard, h2] at h
          exact absurd h (by simp)
      | some s =>
          by_cases hs1 : s = 1
          · subst hs1
            obtain ⟨h2, -, -, -⟩ := login_cookies_flag1 st env hd hc
            rw [login, if_neg hguard, h2] at h
            exact absurd h (by simp)
          · obtain ⟨h2, htok, -, -, hsv, -⟩ :=
              login_cookies_flag_ne1 st env s hd hc hs1
            rw [login, if_neg hguard, h2] at h ⊢
            dsimp only at h ⊢
            by_cases hs : (s != 0) = true
            · rw [if_pos hs] at h ⊢
              exact ⟨htok, hsv⟩
            · rw [if_neg hs] at h ⊢
              cases hbf : backfillCredentials (login_cookies st env).1 env with
              | error e =>
                  rw [hbf] at h
                  exact absurd h (by simp)
              | ok st2 =>
                  obtain ⟨htok2, hsv2⟩ := backfill_preserves _ env st2 hbf
                  rw [htok] at htok2
                  rw [hsv] at hsv2
                  rw [hbf] at h
                  dsimp only at h ⊢
                  cases hra : env.authResponse.success with
                  | none => rw [hra] at h; exact absurd h (by simp)
                  | some success =>
                      rw [hra] at h
                      dsimp only at h ⊢
                      by_cases h1 : success = 1
                      · rw [if_pos h1] at h ⊢
                        exact ⟨htok2, hsv2⟩
                      · rw [if_neg h1] at h ⊢
                        by_cases h2fa :
                            (decide (success = 0) &&
                              env.authResponse.autoLoginParameter.isSome) = true
                        · rw [if_pos h2fa] at h ⊢
                          cases hsec : env.storedSecret with
                          | none => rw [hsec] at h; exact absurd h (by simp)
                          | some sec =>
                              rw [hsec] at h
                              dsimp only at h ⊢
                              cases hs2 : env.authResponse2fa.success with
                              | none => rw [hs2] at h; exact absurd h (by simp)
                              | some s2 =>
                                  rw [hs2] at h
                                  dsimp only at h ⊢
                                  by_cases hs21 : s2 = 1
                                  · rw [if_pos hs21] at h ⊢
                                    exact ⟨htok2, hsv2⟩
                                  · rw [if_neg hs21] at h ⊢
                                    cases throw with
                                    | true => simp at h
                                    | false =>
                                        have hs0 : success = 0 := by
                                          simp only [Bool.and_eq_true,
                                            decide_eq_true_eq] at h2fa
                                          exact h2fa.1
                                        rw [hs0] at h
                                        simp at h
                        · rw [if_neg h2fa] at h ⊢
                          split at h <;> exact absurd h (by simp)

/-- Claim C5, counterexample: the claim says absence of a stored value is
not an error and that a username-only client gets its password lazily
backfilled from the store. But `Client.__init__` creates `db_ops` only
when both a username and a password are supplied (core.py, lines 71 to
77), so a username-only client has no `db_ops`, and `login_cookies`
raises `AttributeError` at its first statement (core.py, line 178) —
before any store lookup, even when the store holds both cookies and the
credentials, and regardless of `throw`. The lazy backfill of core.py,
lines 225 to 227 never runs. -/
theorem login_username_only_cex :
    (login ⟨false, none, [], some "u", none, 0, false⟩
        ⟨some [("sess", "abc")], some 1, some ("u", "pw"), none,
          ⟨some 1, "", none⟩, ⟨some 0, "", none⟩⟩
        false false).2 = Except.error (PyError.attributeError "db_ops") ∧
    clientHasDbOps (some "u") none = false := ⟨rfl, rfl⟩

/-- Claim C5, amended: for a fully-credentialed client (which has
`db_ops`), the absence of cached cookies is indeed not an error — the
probe proceeds and login can continue to a successful password stage. But
the username-only scenario never reaches the credential store: a falsy
password at construction means `db_ops` was never created, and login on a
client without `db_ops` raises `AttributeError` at the first store
dereference, for every environment alike — so the lazy password backfill
(core.py, lines 225 to 227) is unreachable in the program. -/
theorem login_store_absence (st : ClientState) (env : LoginEnv)
    (force throw : Bool) (u p : Option String)
    (hlogged : st.logged = false) :
    (st.hasDbOps = true → env.cookieAuthSuccess = some 0 →
      env.storedCookies = none → truthy st.password = true →
      env.authResponse.success = some 1 →
      (login st env force throw).2 = Except.ok true) ∧
    (truthy p = false → clientHasDbOps u p = false) ∧
    (st.hasDbOps = false →
      (login st env force throw).2 =
        Except.error (PyError.attributeError "db_ops")) := by
  have hguard : ¬(!force && st.logged) = true := by
    rw [hlogged]; simp
  refine ⟨?_, ?_, ?_⟩
  · intro hd hcookie hsc hbp hra
    obtain ⟨h2, -, hpw, -, -, -⟩ :=
      login_cookies_flag_ne1 st env 0 hd hcookie (by norm_num)
    have h2b : (login_cookies st env).2 = Except.ok false := by simpa using h2
    have hbf : backfillCredentials (login_cookies st env).1 env =
        Except.ok (login_cookies st env).1 := by
      rw [backfillCredentials, hpw, hbp]
      simp
    rw [login, if_neg hguard, h2b]
    dsimp only
    rw [if_neg (by simp : ¬(false = true)), hbf]
    dsimp only
    rw [hra]
    dsimp only
    rw [if_pos rfl]
  · intro hp
    simp [clientHasDbOps, hp]
  · intro hd
    rw [login, if_neg hguard, login_cookies_noDb st env hd]

/-- Witness for the amended C5: a fully-credentialed client with no cached
cookies logs in via the password stage; a username-only construction has
no `db_ops`; and a concrete username-only login fails with
`AttributeError` although the store holds the credentials. -/
theorem login_store_absence_witness :
    (login ⟨false, none, [], some "u", some "p", 0, true⟩
        ⟨none, some 0, none, none, ⟨some 1, "", none⟩, ⟨some 0, "", none⟩⟩
        false false).2 = Except.ok true ∧
    clientHasDbOps (some "u") none = false ∧
    (login ⟨false, none, [], some "u", none, 0, false⟩
        ⟨none, some 0, some ("u", "pw"), none, ⟨some 1, "", none⟩,
          ⟨some 0, "", none⟩⟩
        false true).2 = Except.error (PyError.attributeError "db_ops") :=
  ⟨(login_store_absence ⟨false, none, [], some "u", some "p", 0, true⟩
      ⟨none, some 0, none, none, ⟨some 1, "", none⟩, ⟨some 0, "", none⟩⟩
      false false (some "u") none rfl).1 rfl rfl rfl rfl rfl,
    (login_store_absence ⟨false, none, [], some "u", some "p", 0, true⟩
      ⟨none, some 0, none, none, ⟨some 1, "", none⟩, ⟨some 0, "", none⟩⟩
      false false (some "u") none rfl).2.1 rfl,
    (login_store_absence ⟨false, none, [], some "u", none, 0, false⟩
      ⟨none, some 0, some ("u", "pw"), none, ⟨some 1, "", none⟩,
        ⟨some 0, "", none⟩⟩
      false true (some "u") none rfl).2.2 rfl⟩

/-- Witness for the amended C3: a concrete password-auth login that
succeeds ends with no cached token and an unchanged store-write counter. -/
theorem login_token_cleared_no_persist_witness :
    (login ⟨false, some "cachedtok", [], some "u", some "p", 0, true⟩
        ⟨none, some 0, none, none, ⟨some 1, "", none⟩, ⟨some 0, "", none⟩⟩
        false true).1.grantedToken = none ∧
    (login ⟨false, some "cachedtok", [], some "u", some "p", 0, true⟩
        ⟨none, some 0, none, none, ⟨some 1, "", none⟩, ⟨some 0, "", none⟩⟩
        false true).1.storeSaves =
      (⟨false, some "cachedtok", [], some "u", some "p", 0, true⟩ :
        ClientState).storeSaves :=
  login_token_cleared_no_persist _ _ false true rfl

/- ## OTP generation: `Client.time_remaining_till_next_interval` and
`Client.generate_otp` (core.py, lines 416 to 457)

`generate_otp` derives the code with `pyotp.TOTP(secret_key,
interval=timestep).now()`. The `pyotp` dependency implements RFC 6238
TOTP over RFC 4226 HOTP: the code is the dynamic truncation, reduced
modulo `10 ^ 6`, of the HMAC-SHA1 of the 8-byte big-endian counter
`floor(t / interval)` under the base32-decoded secret. That algorithm is
embedded below so the claims about code values can be settled concretely;
32-bit words are `Nat` values with explicit `% 2 ^ 32`. -/

/-- Left rotation of a 32-bit word represented as a `Nat` below `2 ^ 32`. -/
def rotl32 (x n : Nat) : Nat := ((x <<< n) ||| (x >>> (32 - n))) % 2 ^ 32

/-- Big-endian byte serialization: `beBytes k n` is the `k`-byte big-endian
representation of `n` modulo `2 ^ (8 * k)`. -/
def beBytes : Nat → Nat → List Nat
  | 0, _ => []
  | k + 1, n => (n >>> (8 * k)) % 256 :: beBytes k n

/-- Group a byte list into big-endian 32-bit words (all uses are on lists
whose length is a multiple of 4). -/
def bytesToWords : List Nat → List Nat
  | b0 :: b1 :: b2 :: b3 :: rest =>
      (((b0 * 256 + b1) * 256 + b2) * 256 + b3) :: bytesToWords rest
  | _ => []

/-- SHA-1 round function (FIPS 180-1); bitwise complement is XOR with the
all-ones 32-bit word. -/
def sha1F (t b c d : Nat) : Nat :=
  if t < 20 then (b &&& c) ||| ((b ^^^ (2 ^ 32 - 1)) &&& d)
  else if t < 40 then b ^^^ c ^^^ d
  else if t < 60 then (b &&& c) ||| (b &&& d) ||| (c &&& d)
  else b ^^^ c ^^^ d

/-- SHA-1 round constants. -/
def sha1K (t : Nat) : Nat :=
  if t < 20 then 0x5A827999 else if t < 40 then 0x6ED9EBA1
  else if t < 60 then 0x8F1BBCDC else 0xCA62C1D6

/-- Message-schedule extension: emit `n` further schedule words given the
sliding window of the 16 most recent ones (`w0` is the oldest, so the new
word is the 1-rotation of `w13 xor w8 xor w2 xor w0`). -/
def sha1W : Nat → Nat → Nat → Nat → Nat → Nat → Nat → Nat → Nat → Nat →
    Nat → Nat → Nat → Nat → Nat → Nat → Nat → List Nat
  | 0, _, _, _, _, _, _, _, _, _, _, _, _, _, _, _, _ => []
  | n + 1, w0, w1, w2, w3, w4, w5, w6, w7, w8, w9, w10, w11, w12, w13,
      w14, w15 =>
      let x := rotl32 (w13 ^^^ w8 ^^^ w2 ^^^ w0) 1
      x :: sha1W n w1 w2 w3 w4 w5 w6 w7 w8 w9 w10 w11 w12 w13 w14 w15 x
  termination_by structural n => n

/-- The 80 rounds, consuming the schedule word list with round counter `t`
and the five working words passed positionally. -/
def sha1Round : List Nat → Nat → Nat → Nat → Nat → Nat → Nat →
    Nat × Nat × Nat × Nat × Nat
  | [], _, a, b, c, d, e => (a, b, c, d, e)
  | w :: ws, t, a, b, c, d, e =>
      sha1Round ws (t + 1)
        ((rotl32 a 5 + sha1F t b c d + e + sha1K t + w) % 2 ^ 32)
        a (rotl32 b 30) c d

/-- One SHA-1 compression of a 16-word block into the five-word chaining
state (a block shorter than 16 words cannot arise from the padding). -/
def sha1Compress (h : List Nat) : List Nat → List Nat
  | b0 :: b1 :: b2 :: b3 :: b4 :: b5 :: b6 :: b7 :: b8 :: b9 :: b10 ::
      b11 :: b12 :: b13 :: b14 :: b15 :: _ =>
      let ws := b0 :: b1 :: b2 :: b3 :: b4 :: b5 :: b6 :: b7 :: b8 :: b9 ::
        b10 :: b11 :: b12 :: b13 :: b14 :: b15 ::
        sha1W 64 b0 b1 b2 b3 b4 b5 b6 b7 b8 b9 b10 b11 b12 b13 b14 b15
      match sha1Round ws 0 (h.getD 0 0) (h.getD 1 0) (h.getD 2 0)
          (h.getD 3 0) (h.getD 4 0) with
      | (a, b, c, d, e) =>
          [(h.getD 0 0 + a) % 2 ^ 32, (h.getD 1 0 + b) % 2 ^ 32,
            (h.getD 2 0 + c) % 2 ^ 32, (h.getD 3 0 + d) % 2 ^ 32,
            (h.getD 4 0 + e) % 2 ^ 32]
  | _ => h

/-- SHA-1 padding: append `0x80`, zero bytes up to 56 modulo 64, then the
8-byte big-endian bit length. -/
def sha1Pad (msg : List Nat) : List Nat :=
  msg ++ [0x80] ++ List.replicate ((120 - (msg.length + 1) % 64) % 64) 0 ++
    beBytes 8 (8 * msg.length)

/-- Process the word stream block by block; the first argument is the
number of 16-word blocks. -/
def sha1Blocks : Nat → List Nat → List Nat → List Nat
  | 0, _, h => h
  | fuel + 1, ws, h =>
      sha1Blocks fuel (ws.drop 16) (sha1Compress h ws)

/-- SHA-1 digest (20 bytes) of a byte list. -/
def sha1 (msg : List Nat) : List Nat :=
  let ws := bytesToWords (sha1Pad msg)
  let h := sha1Blocks (ws.length / 16) ws
    [0x67452301, 0xEFCDAB89, 0x98BADCFE, 0x10325476, 0xC3D2E1F0]
  h.foldr (fun x acc => beBytes 4 x ++ acc) []

/-- HMAC-SHA1 (FIPS 198-1). -/
def hmacSha1 (key msg : List Nat) : List Nat :=
  let key := if 64 < key.length then sha1 key else key
  let key := key ++ List.replicate (64 - key.length) 0
  sha1 ((key.map (fun b => b ^^^ 0x5c)) ++
    sha1 ((key.map (fun b => b ^^^ 0x36)) ++ msg))

/-- Value of a base32 alphabet character (A to Z, then 2 to 7). -/
def b32Val (c : Char) : Nat :=
  if 'A' ≤ c ∧ c ≤ 'Z' then c.toNat - 65
  else if '2' ≤ c ∧ c ≤ '7' then c.toNat - 50 + 26
  else 0

/-- Base32 decoding of an unpadded upper-case secret, as `pyotp`'s
`byte_secret` does on such secrets: concatenate the 5-bit character values
and keep the whole bytes. -/
def b32decode (s : String) : List Nat :=
  let vals := s.toList.map b32Val
  let n := vals.foldl (fun acc v => acc * 32 + v) 0
  let bits := 5 * vals.length
  beBytes (bits / 8) (n >>> (bits % 8))

/-- HOTP dynamic truncation (RFC 4226, section 5.3): a 31-bit big-endian
value read at the offset given by the low nibble of the last digest byte. -/
def dynamicTruncate (digest : List Nat) : Nat :=
  let o := (digest.getD 19 0) &&& 0xF
  (((digest.getD o 0) &&& 0x7F) <<< 24) |||
    ((digest.getD (o + 1) 0) <<< 16) |||
    ((digest.getD (o + 2) 0) <<< 8) ||| (digest.getD (o + 3) 0)

/-- HOTP value (RFC 4226): six decimal digits from the HMAC-SHA1 of the
8-byte big-endian counter under the base32-decoded secret. -/
def hotp (secret : String) (counter : Nat) : Nat :=
  dynamicTruncate (hmacSha1 (b32decode secret) (beBytes 8 counter)) % 10 ^ 6

/-- `pyotp.TOTP(secret, interval).at(t)`: the HOTP value at counter
`floor(t / interval)`. -/
def totpAt (secret : String) (interval t : Nat) : Nat :=
  hotp secret (t / interval)

/-- `Client.time_remaining_till_next_interval` (core.py, lines 416 to
427): `timestep - int(time.time()) % timestep`, with the clock passed
explicitly. -/
def time_remaining_till_next_interval (now timestep : Nat) : Nat :=
  timestep - now % timestep

/-- Duration of the pre-derivation sleep of `Client.generate_otp`
(core.py, lines 442 to 447): `remaining + 1` seconds when the remaining
time is at or below the wait threshold, otherwise no sleep. -/
def otpSleep (now timestep wait_threshold : Nat) : Nat :=
  if time_remaining_till_next_interval now timestep ≤ wait_threshold then
    time_remaining_till_next_interval now timestep + 1
  else 0

/-- `Client.generate_otp` (core.py, lines 430 to 457) with the clock and
the credential store passed explicitly: when the remaining time to the
interval boundary is at or below the wait threshold, sleep past the
boundary, so the code is derived at clock `now + remaining + 1`; raise
`ValueError` when the store holds no secret for the user; otherwise derive
the TOTP at the (possibly shifted) clock. -/
def generate_otp (storedSecret : Option String)
    (now timestep wait_threshold : Nat) : Except PyError Nat :=
  let remaining := time_remaining_till_next_interval now timestep
  let t := if remaining ≤ wait_threshold then now + remaining + 1 else now
  match storedSecret with
  | none => .error .valueErrorNoSecret
  | some secret => .ok (totpAt secret timestep t)

/-- The TOTP counter `generate_otp` actually uses at clock `now`:
`floor(now / timestep)`, bumped past the boundary when the remaining time
is at or below the wait threshold. -/
def effectiveCounter (now timestep wait_threshold : Nat) : Nat :=
  let remaining := time_remaining_till_next_interval now timestep
  if remaining ≤ wait_threshold then (now + remaining + 1) / timestep
  else now / timestep

/-- Helper: `generate_otp` with a stored secret returns exactly the HOTP
value at the effective counter. -/
theorem generate_otp_eq (s : String) (now timestep wait_threshold : Nat) :
    generate_otp (some s) now timestep wait_threshold =
      Except.ok (hotp s (effectiveCounter now timestep wait_threshold)) := by
  unfold generate_otp effectiveCounter totpAt
  by_cases hb : time_remaining_till_next_interval now timestep ≤
      wait_threshold <;>
    simp [hb]

/-- Helper: the effective counter at interval 30 and threshold 3 is the
30-second window index, bumped by one in the last 3 seconds of a window. -/
theorem effectiveCounter_spec (t : Nat) :
    effectiveCounter t 30 3 =
      if 27 ≤ t % 30 then t / 30 + 1 else t / 30 := by
  unfold effectiveCounter time_remaining_till_next_interval
  have hm : t % 30 < 30 := Nat.mod_lt t (by norm_num)
  by_cases hb : 30 - t % 30 ≤ 3
  · rw [if_pos hb, if_pos (by omega)]
    omega
  · rw [if_neg hb, if_neg (by omega)]

set_option maxRecDepth 100000
set_option maxHeartbeats 8000000

/-- Claim C7, counterexample: with the secret `GEZDGNBVGY3TQOJQ` (a
well-formed base32 secret), the clocks 1 and 28 fall in the same 30-second
interval, yet `generate_otp` yields different codes (at clock 28 the
remaining 2 seconds are below the wait threshold, so the code is derived
for the next window) — refuting purity in `(secret, floor(now / 30))`; and
the clocks 8940 and 61170 are more than 30 seconds apart (windows 298 and
2039), yet both yield the code 140418 — refuting that codes at least 30
seconds apart always differ (six-digit truncation collides). -/
theorem otp_window_claims_cex :
    (1 : Nat) / 30 = 28 / 30 ∧
    generate_otp (some "GEZDGNBVGY3TQOJQ") 1 30 3 = Except.ok 891490 ∧
    generate_otp (some "GEZDGNBVGY3TQOJQ") 28 30 3 = Except.ok 263420 ∧
    (891490 : Nat) ≠ 263420 ∧
    8940 + 30 ≤ 61170 ∧
    generate_otp (some "GEZDGNBVGY3TQOJQ") 8940 30 3 = Except.ok 140418 ∧
    generate_otp (some "GEZDGNBVGY3TQOJQ") 61170 30 3 =
      Except.ok 140418 := by
  refine ⟨by norm_num, rfl, rfl, by norm_num, by norm_num, rfl, rfl⟩

/-- Claim C7, amended: `generate_otp` at interval 30 and wait threshold 3
is pure in `(secret, effective counter)`, where the effective counter is
`floor(now / 30)` bumped to the next window during the last 3 seconds of a
window: equal effective counters yield identical codes, and clocks at
least 30 seconds apart always have distinct effective counters (but their
six-digit codes may still coincide, as the counterexample shows). -/
theorem otp_effective_counter (s : String) (t1 t2 : Nat) :
    (effectiveCounter t1 30 3 = effectiveCounter t2 30 3 →
      generate_otp (some s) t1 30 3 = generate_otp (some s) t2 30 3) ∧
    (t1 + 30 ≤ t2 →
      effectiveCounter t1 30 3 ≠ effectiveCounter t2 30 3) := by
  constructor
  · intro h
    rw [generate_otp_eq, generate_otp_eq, h]
  · intro h12
    rw [effectiveCounter_spec, effectiveCounter_spec]
    split <;> split <;> omega

/-- Witness for the amended C7: clocks 5 and 20 share effective counter 0
and get the same code; clocks 0 and 30 are 30 seconds apart and have
distinct effective counters. -/
theorem otp_effective_counter_witness :
    generate_otp (some "GEZDGNBVGY3TQOJQ") 5 30 3 =
      generate_otp (some "GEZDGNBVGY3TQOJQ") 20 30 3 ∧
    effectiveCounter 0 30 3 ≠ effectiveCounter 30 30 3 :=
  ⟨(otp_effective_counter "GEZDGNBVGY3TQOJQ" 5 20).1 (by decide),
    (otp_effective_counter "GEZDGNBVGY3TQOJQ" 0 30).2 (by decide)⟩

/-- Claim C10: for every positive timestep `t`, the remaining time to the
next interval is between 1 and `t` inclusive — never 0 — and the
pre-derivation sleep of `generate_otp` (which runs only when the remaining
time is at or below the wait threshold and lasts `remaining + 1` seconds)
is at most `t + 1` seconds. -/
theorem time_remaining_bounds (now t w : Nat) (ht : 0 < t) :
    1 ≤ time_remaining_till_next_interval now t ∧
    time_remaining_till_next_interval now t ≤ t ∧
    time_remaining_till_next_interval now t ≠ 0 ∧
    otpSleep now t w ≤ t + 1 := by
  have hm : now % t < t := Nat.mod_lt now ht
  unfold otpSleep time_remaining_till_next_interval
  refine ⟨by omega, by omega, by omega, ?_⟩
  split <;> omega

/-- Witness for C10 at clock 7, timestep 30, threshold 3. -/
theorem time_remaining_bounds_witness :
    1 ≤ time_remaining_till_next_interval 7 30 ∧
    time_remaining_till_next_interval 7 30 ≤ 30 ∧
    time_remaining_till_next_interval 7 30 ≠ 0 ∧
    otpSleep 7 30 3 ≤ 30 + 1 :=
  time_remaining_bounds 7 30 3 (by decide)

end PHUB
